import Mathlib

/-!
Verification of the aerodynamic-coefficient evaluator in `src/aero.py`
(class `Aerodynamics`).  The Python floats are modelled as real numbers;
`math.exp`, `math.log`, `math.sqrt` and the float power `**` become
`Real.exp`, `Real.log`, `Real.sqrt` and `Real.rpow`.  Python functions that
can raise are modelled as `Except PyError`.
-/

noncomputable section

/-- Outcomes of the Python exceptions that the evaluation entry points can
produce: an explicit `ValueError` raise, a `TypeError` coming from calling
scipy with `None` arguments, and the `UnboundLocalError` raised when a local
variable is read before any branch assigned it. -/
inductive PyError where
  | valueError (msg : String)
  | typeError
  | unboundLocal
  deriving DecidableEq

/- Fixed constants of the semi-empirical (xRotor) model, aero.py lines 141-145. -/

/-- aero.py line 141: `CDMSTALL = 0.1000`. -/
def CDMSTALL : ℝ := 0.1

/-- aero.py line 142: `CDMFACTOR = 10.0`. -/
def CDMFACTOR : ℝ := 10

/-- aero.py line 143: `CLMFACTOR = 0.25`. -/
def CLMFACTOR : ℝ := 0.25

/-- aero.py line 144: `MEXP = 3.0`. -/
def MEXP : ℝ := 3

/-- aero.py line 145: `CDMDD = 0.0020`. -/
def CDMDD : ℝ := 0.002

/-- The eleven empirical airfoil parameters of the xRotor branch of
`eval_coeffs` (keyword arguments of `eval_coeffs`, aero.py lines 107-117). -/
structure EmpiricalParams where
  alpha_0_lift : ℝ
  Cl_alpha : ℝ
  Cl_alpha_stall : ℝ
  Cl_max : ℝ
  Cl_min : ℝ
  Cl_incr_to_stall : ℝ
  Cd_min : ℝ
  Cl_at_cd_min : ℝ
  dCd_dCl2 : ℝ
  Mach_crit : ℝ
  Re_scaling_exp : ℝ

/-- aero.py line 146: `PG = 1/math.sqrt(1-M**2)` (Prandtl-Glauert factor). -/
def PG (M : ℝ) : ℝ := 1 / Real.sqrt (1 - M ^ 2)

/-- aero.py line 147: the linear lift `lift_coeff = Cl_alpha * PG * (AoA - alpha_0_lift)`. -/
def clLin (p : EmpiricalParams) (AoA M : ℝ) : ℝ :=
  p.Cl_alpha * PG M * (AoA - p.alpha_0_lift)

/-- aero.py line 151: `DMSTALL = (CDMSTALL / CDMFACTOR) ** (1.0 / MEXP)`. -/
def DMSTALL : ℝ := (CDMSTALL / CDMFACTOR) ^ (1 / MEXP)

/-- aero.py lines 152-153: Mach-derated upper stall bound,
`CLMAXM = max(0.0, (Mach_crit + DMSTALL - M)/CLMFACTOR) + Cl_at_cd_min`;
`CLMAX = min(Cl_max, CLMAXM)`. -/
def CLMAX (p : EmpiricalParams) (M : ℝ) : ℝ :=
  min p.Cl_max (max 0 ((p.Mach_crit + DMSTALL - M) / CLMFACTOR) + p.Cl_at_cd_min)

/-- aero.py lines 154-155: Mach-derated lower stall bound,
`CLMINM = min(0.0, -(Mach_crit + DMSTALL - M)/CLMFACTOR) + Cl_at_cd_min`;
`CLMIN = max(Cl_min, CLMINM)`. -/
def CLMIN (p : EmpiricalParams) (M : ℝ) : ℝ :=
  max p.Cl_min (min 0 (-(p.Mach_crit + DMSTALL - M) / CLMFACTOR) + p.Cl_at_cd_min)

/-- aero.py line 159: `ECMAX = math.exp(min(200.0, (lift_coeff - CLMAX)/Cl_incr_to_stall))`
(with `lift_coeff` still the linear lift). -/
def ECMAX (p : EmpiricalParams) (AoA M : ℝ) : ℝ :=
  Real.exp (min 200 ((clLin p AoA M - CLMAX p M) / p.Cl_incr_to_stall))

/-- aero.py line 160: `ECMIN = math.exp(min(200.0, (CLMIN - lift_coeff)/Cl_incr_to_stall))`. -/
def ECMIN (p : EmpiricalParams) (AoA M : ℝ) : ℝ :=
  Real.exp (min 200 ((CLMIN p M - clLin p AoA M) / p.Cl_incr_to_stall))

/-- aero.py line 161: `CLLIM = Cl_incr_to_stall * math.log((1.0 + ECMAX)/(1.0 + ECMIN))`. -/
def CLLIM (p : EmpiricalParams) (AoA M : ℝ) : ℝ :=
  p.Cl_incr_to_stall * Real.log ((1 + ECMAX p AoA M) / (1 + ECMIN p AoA M))

/-- aero.py line 165: `FSTALL = Cl_alpha_stall / Cl_alpha`. -/
def FSTALL (p : EmpiricalParams) : ℝ := p.Cl_alpha_stall / p.Cl_alpha

/-- aero.py line 166: the blended lift coefficient
`lift_coeff = lift_coeff - (1.0 - FSTALL) * CLLIM`. -/
def xrotorCl (p : EmpiricalParams) (AoA M : ℝ) : ℝ :=
  clLin p AoA M - (1 - FSTALL p) * CLLIM p AoA M

/-- aero.py lines 169-172: Reynolds drag scaling,
`RCORR = 1.0 if Re <= 0 else (Re/Re_ref) ** Re_scaling_exp`. -/
def RCORR (p : EmpiricalParams) (Re Re_ref : ℝ) : ℝ :=
  if Re ≤ 0 then 1 else (Re / Re_ref) ^ p.Re_scaling_exp

/-- aero.py line 175: parabolic drag
`drag_coeff = (Cd_min + dCd_dCl2 * (lift_coeff - Cl_at_cd_min) ** 2) * RCORR`
(with `lift_coeff` the blended lift). -/
def cdBase (p : EmpiricalParams) (AoA M Re Re_ref : ℝ) : ℝ :=
  (p.Cd_min + p.dCd_dCl2 * (xrotorCl p AoA M - p.Cl_at_cd_min) ^ 2) * RCORR p Re Re_ref

/-- aero.py line 180: `DCDX = (1.0 - FSTALL) * CLLIM / (PG * Cl_alpha)`. -/
def DCDX (p : EmpiricalParams) (AoA M : ℝ) : ℝ :=
  (1 - FSTALL p) * CLLIM p AoA M / (PG M * p.Cl_alpha)

/-- aero.py line 181: post-stall drag `DCD = 2.0 * DCDX ** 2`. -/
def DCD (p : EmpiricalParams) (AoA M : ℝ) : ℝ := 2 * DCDX p AoA M ^ 2

/-- aero.py line 185: `DMDD = (CDMDD / CDMFACTOR) ** (1.0 / MEXP)`. -/
def DMDD : ℝ := (CDMDD / CDMFACTOR) ^ (1 / MEXP)

/-- aero.py line 186: `CRITMACH = Mach_crit - CLMFACTOR * abs(lift_coeff - Cl_at_cd_min) - DMDD`. -/
def CRITMACH (p : EmpiricalParams) (AoA M : ℝ) : ℝ :=
  p.Mach_crit - CLMFACTOR * |xrotorCl p AoA M - p.Cl_at_cd_min| - DMDD

/-- aero.py lines 187-190: the compressibility-drag step as a function of the
critical Mach number and the flow Mach number:
`CDC = 0.0 if M < CRITMACH else CDMFACTOR * (M - CRITMACH) ** MEXP`. -/
def CDCfun (critmach M : ℝ) : ℝ :=
  if M < critmach then 0 else CDMFACTOR * (M - critmach) ^ MEXP

/-- aero.py lines 185-190: the compressibility drag of the xRotor branch. -/
def CDC (p : EmpiricalParams) (AoA M : ℝ) : ℝ := CDCfun (CRITMACH p AoA M) M

/-- aero.py line 192: `FAC = 1.0` (the commented-out Prandtl-Glauert drag
amplification hook is not exercised). -/
def FAC : ℝ := 1

/-- aero.py line 200: total drag `drag_coeff = FAC * drag_coeff + DCD + CDC`. -/
def xrotorCd (p : EmpiricalParams) (AoA M Re Re_ref : ℝ) : ℝ :=
  FAC * cdBase p AoA M Re Re_ref + DCD p AoA M + CDC p AoA M

/-- aero.py lines 203-208: the piecewise Reynolds-correction exponent
`f = -0.4 if Re < 1e5 else (-1 if Re < 1e6 else -0.15)`. -/
def reyExp (Re : ℝ) : ℝ :=
  if Re < 1e5 then -0.4 else if Re < 1e6 then -1 else -0.15

/-- Modelled from the spec: the 1-D piecewise-linear interpolation used by the
external interpolation routines (`scipy.interpolate.interp2d(kind=linear)` and
`numpy.interp`), which are not part of this repository.  The nodes are
(abscissa, ordinate) pairs with increasing abscissas; queries at or below the
first node return the first ordinate, queries between two nodes are linearly
interpolated, queries past the last node return the last ordinate. -/
def interp1 : List (ℝ × ℝ) → ℝ → ℝ
  | [], _ => 0
  | [(_, y0)], _ => y0
  | (x0, y0) :: (x1, y1) :: rest, xq =>
    if xq ≤ x0 then y0
    else if xq ≤ x1 then y0 + (y1 - y0) * (xq - x0) / (x1 - x0)
    else interp1 ((x1, y1) :: rest) xq

/-- Modelled from the spec: the linear 2-D interpolation
`interp2d(alpha_vec, r_R, database, kind=linear)` of scipy (not part of this
repository), evaluated at `(av, rv)`.  `grid` holds one row per `r_R` entry,
each row indexed by `alpha_vec`; the query interpolates each row at the angle
`av` and then interpolates the resulting column along the span axis at `rv`. -/
def interp2 (alphas rs : List ℝ) (grid : List (List ℝ)) (av rv : ℝ) : ℝ :=
  interp1 (rs.zip (grid.map (fun row => interp1 (alphas.zip row) av))) rv

/-- Modelled from the spec: `numpy.linspace a b n`, the `n` evenly spaced
samples from `a` to `b` (used at aero.py line 87). -/
def linspace (a b : ℝ) (n : ℕ) : List ℝ :=
  (List.range n).map (fun i => a + (b - a) * i / ((n : ℝ) - 1))

/-- Representative empirical parameters, taken from the usage example in
aero.py lines 294-296. -/
def pRef : EmpiricalParams := ⟨0, 6.28, 0.1, 1.5, -0.5, 0.1, 0.013, 0.5, 0.004, 0.8, -0.15⟩

/-- A parameter record that drives the linear lift deep below the negative
stall bound (used to exhibit a negative CLLIM). -/
def pNeg : EmpiricalParams := ⟨0, 1, 0.1, 0, 0, 1, 0, 0, 0, 0.8, 0⟩

/-- The `Aerodynamics` evaluator object: the state set by `__init__`
(aero.py lines 34-39). -/
structure Aerodynamics where
  aero_method : String
  alpha_vec : Option (List ℝ)
  M_corr : Bool
  Rey_corr : Bool

/-- aero.py lines 34-39, `Aerodynamics.__init__`: stores the method string and
the two correction flags; `alpha_vec` is set (from `alpha_vec_xFoil`) only when
the method is `xFoil`.  No other validation happens at construction time. -/
def Aerodynamics.init (aero_method : String) (alpha_vec_xFoil : Option (List ℝ))
    (M_corr Rey_corr : Bool) : Aerodynamics :=
  { aero_method := aero_method
    alpha_vec := if aero_method = "xFoil" then alpha_vec_xFoil else none
    M_corr := M_corr
    Rey_corr := Rey_corr }

/-- aero.py lines 68-104, `Aerodynamics.eval_lift_properties`: returns the pair
`(rad2deg(Cl_alpha), deg2rad(alpha_0_lift))` after the optional Mach
correction.  The `M > 0.7` advisory is a print statement and does not change
the result.  The xFoil branch calls scipy with its arguments unchecked, so a
missing argument surfaces as a `TypeError` inside scipy rather than a
`ValueError`; the unknown-method branch raises `ValueError` (line 99). -/
def Aerodynamics.eval_lift_properties (a : Aerodynamics)
    (Cl_database : Option (List (List ℝ))) (r_R : Option (List ℝ)) (x : Option ℝ)
    (M : ℝ) (alpha_0_lift Cl_alpha : Option ℝ) : Except PyError (ℝ × ℝ) :=
  let res : Except PyError (ℝ × ℝ) :=
    if a.aero_method = "flat_plate" then
      Except.ok (2 * Real.pi * (Real.pi / 180), 0)
    else if a.aero_method = "xFoil" then
      match a.alpha_vec, r_R, x, Cl_database with
      | some av, some rv, some xv, some db =>
        let f_cl := fun alpha => interp2 av rv db alpha xv
        let cla := (f_cl 2 - f_cl (-2)) / (2 - (-2))
        let samples := linspace (-6) 6 10
        let a0 := interp1 ((samples.map f_cl).zip samples) 0
        Except.ok (cla, a0)
      | _, _, _, _ => Except.error PyError.typeError
    else if a.aero_method = "xRotor" then
      if Cl_alpha.isNone || alpha_0_lift.isNone then
        Except.error (PyError.valueError "if xRotor is used as aero method, all aerodynamic parameters must be provided as input")
      else
        Except.ok (Cl_alpha.getD 0 * (Real.pi / 180), alpha_0_lift.getD 0)
    else
      Except.error (PyError.valueError "aero_method must be flat_plate, xFoil or xRrotor")
  Except.map (fun claA0 : ℝ × ℝ =>
    ((if a.M_corr then claA0.1 / Real.sqrt (1 - M ^ 2) else claA0.1) * (180 / Real.pi),
     claA0.2 * (Real.pi / 180))) res

/-- aero.py lines 106-215, `Aerodynamics.eval_coeffs`: dispatch on the method
string, then (for every method other than `xRotor`) the post-processing
corrections of lines 202-213.  The three branches assign `lift_coeff` and
`drag_coeff`; when the method string matches none of them, those locals stay
unassigned and the function fails with `UnboundLocalError` when the
post-processing (or the final `return`) reads them. -/
def Aerodynamics.eval_coeffs (a : Aerodynamics) (AoA Re_ref Re M : ℝ)
    (x : Option ℝ) (r_R : Option (List ℝ))
    (Cl_database Cd_database : Option (List (List ℝ)))
    (alpha_0_lift Cl_alpha Cl_alpha_stall Cl_max Cl_min Cl_incr_to_stall
     Cd_min Cl_at_cd_min dCd_dCl2 Mach_crit Re_scaling_exp : Option ℝ) :
    Except PyError (ℝ × ℝ) :=
  let raw : Except PyError (ℝ × ℝ) :=
    if a.aero_method = "flat_plate" then
      Except.ok (max (min (2 * Real.pi * AoA / Real.sqrt (1 - M ^ 2)) 3.5) (-3.5), 0.02)
    else if a.aero_method = "xFoil" then
      if a.alpha_vec.isNone || x.isNone || r_R.isNone || Cl_database.isNone || Cd_database.isNone then
        Except.error (PyError.valueError "if xfoil is used as aero method, all aerodynamic parameters must be provided as input")
      else
        Except.ok (interp2 (a.alpha_vec.getD []) (r_R.getD []) (Cl_database.getD []) AoA (x.getD 0),
                   interp2 (a.alpha_vec.getD []) (r_R.getD []) (Cd_database.getD []) AoA (x.getD 0))
    else if a.aero_method = "xRotor" then
      if Cl_alpha.isNone || alpha_0_lift.isNone || Cl_alpha_stall.isNone || Cl_max.isNone ||
         Cl_min.isNone || Cl_incr_to_stall.isNone || Cd_min.isNone || Cl_at_cd_min.isNone ||
         dCd_dCl2.isNone || Mach_crit.isNone || Re_scaling_exp.isNone then
        Except.error (PyError.valueError "if xRotor is used as aero method, all aerodynamic parameters must be provided as input")
      else
        let p : EmpiricalParams :=
          ⟨alpha_0_lift.getD 0, Cl_alpha.getD 0, Cl_alpha_stall.getD 0, Cl_max.getD 0,
           Cl_min.getD 0, Cl_incr_to_stall.getD 0, Cd_min.getD 0, Cl_at_cd_min.getD 0,
           dCd_dCl2.getD 0, Mach_crit.getD 0, Re_scaling_exp.getD 0⟩
        Except.ok (xrotorCl p AoA M, xrotorCd p AoA M Re Re_ref)
    else
      Except.error PyError.unboundLocal
  if a.aero_method = "xRotor" then raw
  else
    Except.map (fun lcdc : ℝ × ℝ =>
      ((if a.M_corr then lcdc.1 / Real.sqrt (1 - M ^ 2) else lcdc.1),
       (if a.Rey_corr then lcdc.2 * (Re / Re_ref) ^ reyExp Re else lcdc.2))) raw

/-! ### Helper lemmas about the evaluator -/

/-- Unfolding lemma: the xRotor branch of `eval_coeffs` with all eleven
parameters supplied returns the blended lift and the total drag. -/
theorem eval_coeffs_xrotor_eq (av : Option (List ℝ)) (mcorr rcorr : Bool)
    (AoA Re_ref Re M : ℝ) (x : Option ℝ) (r_R : Option (List ℝ))
    (cldb cddb : Option (List (List ℝ)))
    (a0 ca cas cmx cmn cis cdm ccd d2 mc rse : ℝ) :
    Aerodynamics.eval_coeffs (Aerodynamics.init "xRotor" av mcorr rcorr) AoA Re_ref Re M
      x r_R cldb cddb (some a0) (some ca) (some cas) (some cmx) (some cmn) (some cis)
      (some cdm) (some ccd) (some d2) (some mc) (some rse) =
    Except.ok (xrotorCl ⟨a0, ca, cas, cmx, cmn, cis, cdm, ccd, d2, mc, rse⟩ AoA M,
               xrotorCd ⟨a0, ca, cas, cmx, cmn, cis, cdm, ccd, d2, mc, rse⟩ AoA M Re Re_ref) := rfl

/-- Unfolding lemma: the flat-plate branch of `eval_coeffs` followed by the
post-processing corrections. -/
theorem eval_coeffs_flatplate_eq (av : Option (List ℝ)) (mcorr rcorr : Bool)
    (AoA Re_ref Re M : ℝ) (x : Option ℝ) (r_R : Option (List ℝ))
    (cldb cddb : Option (List (List ℝ))) (o1 o2 o3 o4 o5 o6 o7 o8 o9 o10 o11 : Option ℝ) :
    Aerodynamics.eval_coeffs (Aerodynamics.init "flat_plate" av mcorr rcorr) AoA Re_ref Re M
      x r_R cldb cddb o1 o2 o3 o4 o5 o6 o7 o8 o9 o10 o11 =
    Except.ok
      ((if mcorr then
          max (min (2 * Real.pi * AoA / Real.sqrt (1 - M ^ 2)) 3.5) (-3.5) / Real.sqrt (1 - M ^ 2)
        else max (min (2 * Real.pi * AoA / Real.sqrt (1 - M ^ 2)) 3.5) (-3.5)),
       (if rcorr then (0.02 : ℝ) * (Re / Re_ref) ^ reyExp Re else 0.02)) := rfl

/-- Unfolding lemma: the xFoil branch of `eval_coeffs` as the post-processing
map applied to the dispatch result. -/
theorem eval_coeffs_xfoil_eq (av : Option (List ℝ)) (mcorr rcorr : Bool)
    (AoA Re_ref Re M : ℝ) (x : Option ℝ) (r_R : Option (List ℝ))
    (cldb cddb : Option (List (List ℝ))) (o1 o2 o3 o4 o5 o6 o7 o8 o9 o10 o11 : Option ℝ) :
    Aerodynamics.eval_coeffs (Aerodynamics.init "xFoil" av mcorr rcorr) AoA Re_ref Re M
      x r_R cldb cddb o1 o2 o3 o4 o5 o6 o7 o8 o9 o10 o11 =
    Except.map (fun lcdc : ℝ × ℝ =>
      ((if mcorr then lcdc.1 / Real.sqrt (1 - M ^ 2) else lcdc.1),
       (if rcorr then lcdc.2 * (Re / Re_ref) ^ reyExp Re else lcdc.2)))
      (if (av.isNone || x.isNone || r_R.isNone || cldb.isNone || cddb.isNone) = true then
        Except.error (PyError.valueError "if xfoil is used as aero method, all aerodynamic parameters must be provided as input")
      else
        Except.ok (interp2 (av.getD []) (r_R.getD []) (cldb.getD []) AoA (x.getD 0),
                   interp2 (av.getD []) (r_R.getD []) (cddb.getD []) AoA (x.getD 0))) := rfl

/-! ### Claim theorems -/

/-- C1: under the xRotor variant with all eleven parameters supplied,
`0 ≤ M < 1`, `Cl_alpha ≠ 0` and `Cl_incr_to_stall ≠ 0`, `eval_coeffs` returns
the lift coefficient `Cl = Cl_lin - (1 - Cl_alpha_stall/Cl_alpha) * CLLIM`,
with `Cl_lin = Cl_alpha * (1/sqrt(1-M^2)) * (AoA - alpha_0_lift)` and
`CLLIM = Cl_incr_to_stall * log((1+ECMAX)/(1+ECMIN))`, where
`ECMAX = exp(min 200 ((Cl_lin-CLMAX)/Cl_incr_to_stall))` and
`ECMIN = exp(min 200 ((CLMIN-Cl_lin)/Cl_incr_to_stall))`. -/
theorem xrotor_lift_formula
    (AoA Re_ref Re M a0 ca cas cmx cmn cis cdm ccd d2 mc rse : ℝ)
    (mcorr rcorr : Bool)
    (_hM0 : 0 ≤ M) (_hM1 : M < 1) (_hca : ca ≠ 0) (_hcis : cis ≠ 0) :
    ∃ cd : ℝ,
      Aerodynamics.eval_coeffs (Aerodynamics.init "xRotor" none mcorr rcorr) AoA Re_ref Re M
        none none none none (some a0) (some ca) (some cas) (some cmx) (some cmn) (some cis)
        (some cdm) (some ccd) (some d2) (some mc) (some rse) =
      Except.ok
        (ca * (1 / Real.sqrt (1 - M ^ 2)) * (AoA - a0) -
          (1 - cas / ca) *
            (cis * Real.log
              ((1 + Real.exp (min 200 ((ca * (1 / Real.sqrt (1 - M ^ 2)) * (AoA - a0) -
                    CLMAX ⟨a0, ca, cas, cmx, cmn, cis, cdm, ccd, d2, mc, rse⟩ M) / cis))) /
               (1 + Real.exp (min 200 ((CLMIN ⟨a0, ca, cas, cmx, cmn, cis, cdm, ccd, d2, mc, rse⟩ M -
                    ca * (1 / Real.sqrt (1 - M ^ 2)) * (AoA - a0)) / cis))))),
         cd) :=
  ⟨xrotorCd ⟨a0, ca, cas, cmx, cmn, cis, cdm, ccd, d2, mc, rse⟩ AoA M Re Re_ref, rfl⟩

/-- Witness for C1: the hypotheses of `xrotor_lift_formula` hold at the
representative parameters of the usage example, at `M = 0`. -/
theorem xrotor_lift_formula_witness :
    (0 : ℝ) ≤ 0 ∧ (0 : ℝ) < 1 ∧ (6.28 : ℝ) ≠ 0 ∧ (0.1 : ℝ) ≠ 0 ∧
    ∃ r : ℝ × ℝ,
      Aerodynamics.eval_coeffs (Aerodynamics.init "xRotor" none false false) 0.1 1e6 1e6 0
        none none none none (some 0) (some 6.28) (some 0.1) (some 1.5) (some (-0.5)) (some 0.1)
        (some 0.013) (some 0.5) (some 0.004) (some 0.8) (some (-0.15)) = Except.ok r := by
  refine ⟨le_rfl, by norm_num, by norm_num, by norm_num, ?_⟩
  obtain ⟨cd, h⟩ := xrotor_lift_formula 0.1 1e6 1e6 0 0 6.28 0.1 1.5 (-0.5) 0.1 0.013 0.5
    0.004 0.8 (-0.15) false false le_rfl (by norm_num) (by norm_num) (by norm_num)
  exact ⟨_, h⟩

/-- C7 counterexample: the evaluator for the xRotor variant is constructed
without any empirical parameter (the constructor does not even receive them and
performs no validation), and the missing-parameter `ValueError` is raised only
when `eval_coeffs` is called: the evaluation call is reached with every
parameter missing. -/
theorem xrotor_missing_params_checked_at_call :
    (Aerodynamics.init "xRotor" none false false).aero_method = "xRotor" ∧
    Aerodynamics.eval_coeffs (Aerodynamics.init "xRotor" none false false) 0 1 1 0
      none none none none none none none none none none none none none none none =
    Except.error (PyError.valueError "if xRotor is used as aero method, all aerodynamic parameters must be provided as input") :=
  ⟨rfl, rfl⟩

/-- C7 amended: when the xRotor variant is selected and any of the eleven
empirical parameters is missing, `eval_coeffs` raises the `ValueError` at the
evaluation call (construction performs no validation and always succeeds). -/
theorem xrotor_missing_params_error
    (av : Option (List ℝ)) (mcorr rcorr : Bool) (AoA Re_ref Re M : ℝ)
    (x : Option ℝ) (r_R : Option (List ℝ)) (cldb cddb : Option (List (List ℝ)))
    (o1 o2 o3 o4 o5 o6 o7 o8 o9 o10 o11 : Option ℝ)
    (h : o1 = none ∨ o2 = none ∨ o3 = none ∨ o4 = none ∨ o5 = none ∨ o6 = none ∨
         o7 = none ∨ o8 = none ∨ o9 = none ∨ o10 = none ∨ o11 = none) :
    Aerodynamics.eval_coeffs (Aerodynamics.init "xRotor" av mcorr rcorr) AoA Re_ref Re M
      x r_R cldb cddb o1 o2 o3 o4 o5 o6 o7 o8 o9 o10 o11 =
    Except.error (PyError.valueError "if xRotor is used as aero method, all aerodynamic parameters must be provided as input") := by
  have hb : (o2.isNone || o1.isNone || o3.isNone || o4.isNone || o5.isNone || o6.isNone ||
             o7.isNone || o8.isNone || o9.isNone || o10.isNone || o11.isNone) = true := by
    rcases h with h | h | h | h | h | h | h | h | h | h | h <;> simp [h]
  show (if (o2.isNone || o1.isNone || o3.isNone || o4.isNone || o5.isNone || o6.isNone ||
            o7.isNone || o8.isNone || o9.isNone || o10.isNone || o11.isNone) = true then
          Except.error (PyError.valueError "if xRotor is used as aero method, all aerodynamic parameters must be provided as input")
        else _) = _
  rw [if_pos hb]

/-- Witness for C7 amended: at a bundle with every parameter missing, the
evaluation call returns the `ValueError`. -/
theorem xrotor_missing_params_error_witness :
    ((none : Option ℝ) = none ∨ (none : Option ℝ) = none ∨ (none : Option ℝ) = none ∨
     (none : Option ℝ) = none ∨ (none : Option ℝ) = none ∨ (none : Option ℝ) = none ∨
     (none : Option ℝ) = none ∨ (none : Option ℝ) = none ∨ (none : Option ℝ) = none ∨
     (none : Option ℝ) = none ∨ (none : Option ℝ) = none) ∧
    Aerodynamics.eval_coeffs (Aerodynamics.init "xRotor" none true true) 0.1 1e6 1e5 0.3
      none none none none none none none none none none none none none none none =
    Except.error (PyError.valueError "if xRotor is used as aero method, all aerodynamic parameters must be provided as input") :=
  ⟨Or.inl rfl,
   xrotor_missing_params_error none true true 0.1 1e6 1e5 0.3 none none none none
     none none none none none none none none none none none (Or.inl rfl)⟩

/-- C8 counterexample: for the unknown variant string `bogus`, `eval_coeffs`
does not raise the configuration `ValueError`: it fails with the
`UnboundLocalError` produced when the post-processing reads the never-assigned
coefficients (no branch of the dispatch raises for an unknown string). -/
theorem unknown_method_eval_coeffs_unbound :
    Aerodynamics.eval_coeffs (Aerodynamics.init "bogus" none false false) 0 1 1 0
      none none none none none none none none none none none none none none none =
    Except.error PyError.unboundLocal ∧
    (∀ msg : String, PyError.unboundLocal ≠ PyError.valueError msg) :=
  ⟨rfl, fun _ h => PyError.noConfusion h⟩

/-- C8 amended: for every variant string outside the three known ones,
`eval_lift_properties` raises the configuration `ValueError` immediately at
the dispatch, while `eval_coeffs` never returns a result but fails with an
`UnboundLocalError` when the post-processing reads the unassigned
coefficients. -/
theorem unknown_method_errors (m : String)
    (h1 : m ≠ "flat_plate") (h2 : m ≠ "xFoil") (h3 : m ≠ "xRotor")
    (av : Option (List ℝ)) (mcorr rcorr : Bool) (AoA Re_ref Re M : ℝ)
    (cldb0 : Option (List (List ℝ))) (r0 : Option (List ℝ)) (x0 : Option ℝ)
    (a00 ca0 : Option ℝ)
    (x : Option ℝ) (r_R : Option (List ℝ)) (cldb cddb : Option (List (List ℝ)))
    (o1 o2 o3 o4 o5 o6 o7 o8 o9 o10 o11 : Option ℝ) :
    Aerodynamics.eval_lift_properties (Aerodynamics.init m av mcorr rcorr) cldb0 r0 x0 M a00 ca0 =
      Except.error (PyError.valueError "aero_method must be flat_plate, xFoil or xRrotor") ∧
    Aerodynamics.eval_coeffs (Aerodynamics.init m av mcorr rcorr) AoA Re_ref Re M
      x r_R cldb cddb o1 o2 o3 o4 o5 o6 o7 o8 o9 o10 o11 =
      Except.error PyError.unboundLocal := by
  constructor
  · unfold Aerodynamics.eval_lift_properties Aerodynamics.init
    dsimp only
    rw [if_neg h1, if_neg h2, if_neg h3]
    rfl
  · unfold Aerodynamics.eval_coeffs Aerodynamics.init
    dsimp only
    rw [if_neg h3, if_neg h1, if_neg h2, if_neg h3]
    rfl

/-- Witness for C8 amended: instantiated at the unknown string `mystery`. -/
theorem unknown_method_errors_witness :
    ("mystery" ≠ "flat_plate") ∧
    Aerodynamics.eval_lift_properties (Aerodynamics.init "mystery" none false false)
      none none none 0 none none =
      Except.error (PyError.valueError "aero_method must be flat_plate, xFoil or xRrotor") ∧
    Aerodynamics.eval_coeffs (Aerodynamics.init "mystery" none false false) 0 1 1 0
      none none none none none none none none none none none none none none none =
      Except.error PyError.unboundLocal :=
  ⟨by decide,
   unknown_method_errors "mystery" (by decide) (by decide) (by decide) none false false 0 1 1 0
     none none none none none none none none none none none none none none none none
     none none none none⟩

/-- C2: under the xRotor variant the compressibility term added to the total
drag is `CDCfun (CRITMACH) M`, which is exactly `0` when `M < CRITMACH` and
`CDMFACTOR * (M - CRITMACH) ^ MEXP` when `M ≥ CRITMACH`, where
`CRITMACH = Mach_crit - CLMFACTOR * |Cl - Cl_at_cd_min| - DMDD` and
`DMDD = (CDMDD/CDMFACTOR) ^ (1/MEXP)`, with the fixed constants
`CDMFACTOR = 10`, `CLMFACTOR = 0.25`, `MEXP = 3`, `CDMDD = 0.0020`; and the
step `CDCfun c` is monotone in `M` on `M ≥ c`. -/
theorem xrotor_compressibility_drag
    (AoA Re_ref Re M a0 ca cas cmx cmn cis cdm ccd d2 mc rse : ℝ)
    (mcorr rcorr : Bool) (_hM0 : 0 ≤ M) (_hM1 : M < 1) :
    CDMFACTOR = 10 ∧ CLMFACTOR = 0.25 ∧ MEXP = 3 ∧ CDMDD = 0.0020 ∧
    DMDD = (CDMDD / CDMFACTOR) ^ (1 / MEXP) ∧
    CRITMACH ⟨a0, ca, cas, cmx, cmn, cis, cdm, ccd, d2, mc, rse⟩ AoA M =
      mc - CLMFACTOR * |xrotorCl ⟨a0, ca, cas, cmx, cmn, cis, cdm, ccd, d2, mc, rse⟩ AoA M - ccd| - DMDD ∧
    Aerodynamics.eval_coeffs (Aerodynamics.init "xRotor" none mcorr rcorr) AoA Re_ref Re M
      none none none none (some a0) (some ca) (some cas) (some cmx) (some cmn) (some cis)
      (some cdm) (some ccd) (some d2) (some mc) (some rse) =
    Except.ok (xrotorCl ⟨a0, ca, cas, cmx, cmn, cis, cdm, ccd, d2, mc, rse⟩ AoA M,
      FAC * cdBase ⟨a0, ca, cas, cmx, cmn, cis, cdm, ccd, d2, mc, rse⟩ AoA M Re Re_ref +
        DCD ⟨a0, ca, cas, cmx, cmn, cis, cdm, ccd, d2, mc, rse⟩ AoA M +
        CDCfun (CRITMACH ⟨a0, ca, cas, cmx, cmn, cis, cdm, ccd, d2, mc, rse⟩ AoA M) M) ∧
    (∀ c : ℝ, M < c → CDCfun c M = 0) ∧
    (∀ c : ℝ, c ≤ M → CDCfun c M = CDMFACTOR * (M - c) ^ MEXP) ∧
    (∀ c m1 m2 : ℝ, c ≤ m1 → m1 ≤ m2 → CDCfun c m1 ≤ CDCfun c m2) := by
  refine ⟨rfl, rfl, rfl, by norm_num [CDMDD], rfl, rfl, rfl, ?_, ?_, ?_⟩
  · intro c hc
    exact if_pos hc
  · intro c hc
    exact if_neg (not_lt.mpr hc)
  · intro c m1 m2 h1 h2
    rw [CDCfun, CDCfun, if_neg (not_lt.mpr h1), if_neg (not_lt.mpr (h1.trans h2))]
    apply mul_le_mul_of_nonneg_left _ (by norm_num [CDMFACTOR])
    exact Real.rpow_le_rpow (by linarith) (by linarith) (by norm_num [MEXP])

/-- Witness for C2: the hypotheses hold at `M = 0` with the representative
parameters; the monotone-step component is recovered from the theorem. -/
theorem xrotor_compressibility_drag_witness :
    (0 : ℝ) ≤ 0 ∧ (0 : ℝ) < 1 ∧
    (∀ c m1 m2 : ℝ, c ≤ m1 → m1 ≤ m2 → CDCfun c m1 ≤ CDCfun c m2) :=
  ⟨le_rfl, by norm_num,
   (xrotor_compressibility_drag 0.1 1e6 1e6 0 0 6.28 0.1 1.5 (-0.5) 0.1 0.013 0.5 0.004 0.8
     (-0.15) false false le_rfl (by norm_num)).2.2.2.2.2.2.2.2.2⟩

/-- C4: under the xRotor variant the returned drag decomposes as
`Cd = cdBase + DCD + CDC` with `DCD = 2 * ((1-FSTALL) * CLLIM / (PG * Cl_alpha))^2 ≥ 0`
and `CDC ≥ 0`, hence `Cd ≥ Cd_base = (Cd_min + dCd_dCl2 * (Cl - Cl_at_cd_min)^2) * RCORR`. -/
theorem xrotor_drag_lower_bound
    (AoA Re_ref Re M a0 ca cas cmx cmn cis cdm ccd d2 mc rse : ℝ)
    (mcorr rcorr : Bool) (_hM0 : 0 ≤ M) (_hM1 : M < 1) (_hca : ca ≠ 0)
    (_hcdm : 0 ≤ cdm) (_hd2 : 0 ≤ d2) :
    Aerodynamics.eval_coeffs (Aerodynamics.init "xRotor" none mcorr rcorr) AoA Re_ref Re M
      none none none none (some a0) (some ca) (some cas) (some cmx) (some cmn) (some cis)
      (some cdm) (some ccd) (some d2) (some mc) (some rse) =
    Except.ok (xrotorCl ⟨a0, ca, cas, cmx, cmn, cis, cdm, ccd, d2, mc, rse⟩ AoA M,
               xrotorCd ⟨a0, ca, cas, cmx, cmn, cis, cdm, ccd, d2, mc, rse⟩ AoA M Re Re_ref) ∧
    DCD ⟨a0, ca, cas, cmx, cmn, cis, cdm, ccd, d2, mc, rse⟩ AoA M =
      2 * ((1 - cas / ca) * CLLIM ⟨a0, ca, cas, cmx, cmn, cis, cdm, ccd, d2, mc, rse⟩ AoA M /
        (1 / Real.sqrt (1 - M ^ 2) * ca)) ^ 2 ∧
    0 ≤ DCD ⟨a0, ca, cas, cmx, cmn, cis, cdm, ccd, d2, mc, rse⟩ AoA M ∧
    0 ≤ CDC ⟨a0, ca, cas, cmx, cmn, cis, cdm, ccd, d2, mc, rse⟩ AoA M ∧
    xrotorCd ⟨a0, ca, cas, cmx, cmn, cis, cdm, ccd, d2, mc, rse⟩ AoA M Re Re_ref =
      cdBase ⟨a0, ca, cas, cmx, cmn, cis, cdm, ccd, d2, mc, rse⟩ AoA M Re Re_ref +
      DCD ⟨a0, ca, cas, cmx, cmn, cis, cdm, ccd, d2, mc, rse⟩ AoA M +
      CDC ⟨a0, ca, cas, cmx, cmn, cis, cdm, ccd, d2, mc, rse⟩ AoA M ∧
    cdBase ⟨a0, ca, cas, cmx, cmn, cis, cdm, ccd, d2, mc, rse⟩ AoA M Re Re_ref =
      (cdm + d2 * (xrotorCl ⟨a0, ca, cas, cmx, cmn, cis, cdm, ccd, d2, mc, rse⟩ AoA M - ccd) ^ 2) *
        RCORR ⟨a0, ca, cas, cmx, cmn, cis, cdm, ccd, d2, mc, rse⟩ Re Re_ref ∧
    cdBase ⟨a0, ca, cas, cmx, cmn, cis, cdm, ccd, d2, mc, rse⟩ AoA M Re Re_ref ≤
      xrotorCd ⟨a0, ca, cas, cmx, cmn, cis, cdm, ccd, d2, mc, rse⟩ AoA M Re Re_ref := by
  have hDCD : 0 ≤ DCD ⟨a0, ca, cas, cmx, cmn, cis, cdm, ccd, d2, mc, rse⟩ AoA M := by
    rw [DCD]
    positivity
  have hCDC : 0 ≤ CDC ⟨a0, ca, cas, cmx, cmn, cis, cdm, ccd, d2, mc, rse⟩ AoA M := by
    rw [CDC, CDCfun]
    split
    · exact le_rfl
    · next hlt =>
        have hle : CRITMACH ⟨a0, ca, cas, cmx, cmn, cis, cdm, ccd, d2, mc, rse⟩ AoA M ≤ M :=
          not_lt.mp hlt
        exact mul_nonneg (by norm_num [CDMFACTOR])
          (Real.rpow_nonneg (by linarith) MEXP)
  have hdecomp : xrotorCd ⟨a0, ca, cas, cmx, cmn, cis, cdm, ccd, d2, mc, rse⟩ AoA M Re Re_ref =
      cdBase ⟨a0, ca, cas, cmx, cmn, cis, cdm, ccd, d2, mc, rse⟩ AoA M Re Re_ref +
      DCD ⟨a0, ca, cas, cmx, cmn, cis, cdm, ccd, d2, mc, rse⟩ AoA M +
      CDC ⟨a0, ca, cas, cmx, cmn, cis, cdm, ccd, d2, mc, rse⟩ AoA M := by
    rw [xrotorCd, FAC, one_mul]
  refine ⟨rfl, rfl, hDCD, hCDC, hdecomp, rfl, ?_⟩
  rw [hdecomp]
  linarith

/-- Witness for C4: the hypotheses hold at `M = 0` with the representative
parameters, and the drag bound is recovered from the theorem. -/
theorem xrotor_drag_lower_bound_witness :
    (0 : ℝ) ≤ 0 ∧ (0 : ℝ) < 1 ∧ (6.28 : ℝ) ≠ 0 ∧ (0 : ℝ) ≤ 0.013 ∧ (0 : ℝ) ≤ 0.004 ∧
    cdBase ⟨0, 6.28, 0.1, 1.5, -0.5, 0.1, 0.013, 0.5, 0.004, 0.8, -0.15⟩ 0.1 0 1e6 1e6 ≤
      xrotorCd ⟨0, 6.28, 0.1, 1.5, -0.5, 0.1, 0.013, 0.5, 0.004, 0.8, -0.15⟩ 0.1 0 1e6 1e6 :=
  ⟨le_rfl, by norm_num, by norm_num, by norm_num, by norm_num,
   (xrotor_drag_lower_bound 0.1 1e6 1e6 0 0 6.28 0.1 1.5 (-0.5) 0.1 0.013 0.5 0.004 0.8
     (-0.15) false false le_rfl (by norm_num) (by norm_num) (by norm_num)
     (by norm_num)).2.2.2.2.2.2⟩

/-- At `M = 0` the derated upper bound of `pNeg` collapses to its `Cl_max = 0`. -/
theorem CLMAX_pNeg : CLMAX pNeg 0 = 0 := by
  rw [CLMAX]
  show min (0 : ℝ) (max 0 ((0.8 + DMSTALL - 0) / 0.25) + 0) = 0
  rw [add_zero]
  exact min_eq_left (le_max_left 0 _)

/-- At `M = 0` the derated lower bound of `pNeg` collapses to its `Cl_min = 0`. -/
theorem CLMIN_pNeg : CLMIN pNeg 0 = 0 := by
  rw [CLMIN]
  show max (0 : ℝ) (min 0 (-(0.8 + DMSTALL - 0) / 0.25) + 0) = 0
  rw [add_zero]
  exact max_eq_left (min_le_left 0 _)

/-- With `pNeg` (unit lift slope, zero zero-lift angle) the linear lift at
`M = 0` is the angle of attack itself. -/
theorem clLin_pNeg (A : ℝ) : clLin pNeg A 0 = A := by
  rw [clLin, PG]
  norm_num [pNeg, Real.sqrt_one]

/-- C3 counterexample: with `Cl_incr_to_stall = 1 > 0`, `M = 0` and a deeply
negative linear lift (`AoA = -100`), the stall-limiter value CLLIM is
negative, refuting that CLLIM is always nonnegative. -/
theorem cllim_negative_example :
    0 < pNeg.Cl_incr_to_stall ∧ (0 : ℝ) ≤ 0 ∧ (0 : ℝ) < 1 ∧ CLLIM pNeg (-100) 0 < 0 := by
  refine ⟨by norm_num [pNeg], le_rfl, by norm_num, ?_⟩
  have hE1 : ECMAX pNeg (-100) 0 = Real.exp (-100) := by
    rw [ECMAX, clLin_pNeg, CLMAX_pNeg]
    norm_num [pNeg, min_def]
  have hE2 : ECMIN pNeg (-100) 0 = Real.exp 100 := by
    rw [ECMIN, clLin_pNeg, CLMIN_pNeg]
    norm_num [pNeg, min_def]
  have hlog : Real.log ((1 + Real.exp (-100)) / (1 + Real.exp 100)) < 0 := by
    apply Real.log_neg
    · positivity
    · rw [div_lt_one (by positivity)]
      have := Real.exp_lt_exp.mpr (show (-100 : ℝ) < 100 by norm_num)
      linarith
  rw [CLLIM, hE1, hE2]
  have hs : pNeg.Cl_incr_to_stall = 1 := by norm_num [pNeg]
  rw [hs, one_mul]
  exact hlog

/-- C3 amended: with `Cl_incr_to_stall > 0` the stall-limiter value CLLIM is
nonnegative whenever the linear lift is at or above the midpoint of the
derated bounds, `CLMAX + CLMIN ≤ 2·Cl_lin` (in particular whenever `Cl_lin`
exceeds `CLMAX ≥ CLMIN`); below that midpoint it can be negative. -/
theorem cllim_nonneg_above_midpoint (p : EmpiricalParams) (AoA M : ℝ)
    (hs : 0 < p.Cl_incr_to_stall)
    (hmid : CLMAX p M + CLMIN p M ≤ 2 * clLin p AoA M) :
    0 ≤ CLLIM p AoA M := by
  have hkey : ECMIN p AoA M ≤ ECMAX p AoA M := by
    rw [ECMIN, ECMAX]
    apply Real.exp_le_exp.mpr
    apply min_le_min le_rfl
    rw [div_le_div_iff_of_pos_right hs]
    linarith
  have hpos : 0 < 1 + ECMIN p AoA M := by
    rw [ECMIN]
    positivity
  have h1 : (1 : ℝ) ≤ (1 + ECMAX p AoA M) / (1 + ECMIN p AoA M) := by
    rw [le_div_iff₀ hpos]
    linarith
  rw [CLLIM]
  exact mul_nonneg hs.le (Real.log_nonneg h1)

/-- Witness for C3 amended: at `pNeg` with `AoA = 100`, `M = 0`, the midpoint
hypothesis holds and CLLIM is nonnegative. -/
theorem cllim_nonneg_above_midpoint_witness :
    0 < pNeg.Cl_incr_to_stall ∧
    CLMAX pNeg 0 + CLMIN pNeg 0 ≤ 2 * clLin pNeg 100 0 ∧
    0 ≤ CLLIM pNeg 100 0 := by
  have hmid : CLMAX pNeg 0 + CLMIN pNeg 0 ≤ 2 * clLin pNeg 100 0 := by
    rw [CLMAX_pNeg, CLMIN_pNeg, clLin_pNeg]
    norm_num
  exact ⟨by norm_num [pNeg], hmid,
    cllim_nonneg_above_midpoint pNeg 100 0 (by norm_num [pNeg]) hmid⟩

/-- C5 counterexample: under flat plate at `M = 0`, `AoA = 0` with the
Reynolds-correction flag enabled and `Re = 1e5`, `Re_ref = 1e4`, the returned
drag is `0.02 * 10^(-1) = 0.002`, not the constant `0.02`. -/
theorem flatplate_reynolds_changes_cd :
    (0 : ℝ) ≤ 0 ∧ (0 : ℝ) < 1 ∧
    Aerodynamics.eval_coeffs (Aerodynamics.init "flat_plate" none false true) 0 1e4 1e5 0
      none none none none none none none none none none none none none none none =
      Except.ok (0, 0.002) ∧ (0.002 : ℝ) ≠ 0.02 := by
  refine ⟨le_rfl, by norm_num, ?_, by norm_num⟩
  rw [eval_coeffs_flatplate_eq]
  have hrey : reyExp 1e5 = -1 := by
    rw [reyExp, if_neg (by norm_num), if_pos (by norm_num)]
  rw [hrey]
  have h10 : ((1e5 : ℝ) / 1e4) = 10 := by norm_num
  rw [h10, Real.rpow_neg_one]
  norm_num [Real.sqrt_one, min_def, max_def]

/-- C5 amended: with both correction flags disabled, the flat-plate variant
returns `Cl = clamp(2π·AoA/sqrt(1-M^2), -3.5, 3.5)` and `Cd = 0.02` for every
angle of attack, every Reynolds number and every `0 ≤ M < 1`. -/
theorem flatplate_coeffs_no_corrections (AoA Re_ref Re M : ℝ)
    (_hM0 : 0 ≤ M) (_hM1 : M < 1) :
    Aerodynamics.eval_coeffs (Aerodynamics.init "flat_plate" none false false) AoA Re_ref Re M
      none none none none none none none none none none none none none none none =
    Except.ok (max (min (2 * Real.pi * AoA / Real.sqrt (1 - M ^ 2)) 3.5) (-3.5), 0.02) := rfl

/-- Witness for C5 amended: instantiated at `AoA = 0.1`, `M = 0`. -/
theorem flatplate_coeffs_no_corrections_witness :
    (0 : ℝ) ≤ 0 ∧ (0 : ℝ) < 1 ∧
    Aerodynamics.eval_coeffs (Aerodynamics.init "flat_plate" none false false) 0.1 1e6 1e6 0
      none none none none none none none none none none none none none none none =
    Except.ok (max (min (2 * Real.pi * 0.1 / Real.sqrt (1 - 0 ^ 2)) 3.5) (-3.5), 0.02) :=
  ⟨le_rfl, by norm_num, flatplate_coeffs_no_corrections 0.1 1e6 1e6 0 le_rfl (by norm_num)⟩

/-- C10: under flat plate with the Mach-correction flag enabled and
`0 < M < 1`, at `AoA = 1` the clamp saturates at `3.5` and the
post-processing divides by `sqrt(1-M^2)` a second time, so the returned lift
is `3.5 / sqrt(1-M^2) > 3.5`: the `±3.5` bound is not an invariant of the
returned lift coefficient. -/
theorem flatplate_mach_correction_exceeds_clamp (Re Re_ref M : ℝ) (rcorr : Bool)
    (hM0 : 0 < M) (hM1 : M < 1) :
    ∃ cd : ℝ,
      Aerodynamics.eval_coeffs (Aerodynamics.init "flat_plate" none true rcorr) 1 Re_ref Re M
        none none none none none none none none none none none none none none none =
      Except.ok (3.5 / Real.sqrt (1 - M ^ 2), cd) ∧
      (3.5 : ℝ) < 3.5 / Real.sqrt (1 - M ^ 2) := by
  have hpos : (0 : ℝ) < 1 - M ^ 2 := by nlinarith
  have hs0 : 0 < Real.sqrt (1 - M ^ 2) := Real.sqrt_pos.mpr hpos
  have hs1 : Real.sqrt (1 - M ^ 2) < 1 := by
    have h2 : 1 - M ^ 2 < 1 := by nlinarith
    have h3 := Real.sqrt_lt_sqrt hpos.le h2
    rwa [Real.sqrt_one] at h3
  have hpi : (3.5 : ℝ) ≤ 2 * Real.pi * 1 / Real.sqrt (1 - M ^ 2) := by
    rw [le_div_iff₀ hs0]
    nlinarith [Real.pi_gt_three]
  have hclamp : max (min (2 * Real.pi * 1 / Real.sqrt (1 - M ^ 2)) 3.5) (-3.5) = 3.5 := by
    rw [min_eq_right hpi, max_eq_left (by norm_num)]
  refine ⟨(if rcorr then (0.02 : ℝ) * (Re / Re_ref) ^ reyExp Re else 0.02), ?_, ?_⟩
  · rw [eval_coeffs_flatplate_eq, hclamp]
    simp
  · rw [lt_div_iff₀ hs0]
    nlinarith

/-- C6: when the Reynolds-correction flag is enabled under flat plate or
xFoil, the returned drag is the uncorrected drag times `(Re/Re_ref)^f` with
the piecewise exponent `f = reyExp Re` (`-0.4` for `Re < 1e5`, `-1` for
`1e5 ≤ Re < 1e6`, `-0.15` for `Re ≥ 1e6`, switching exactly at `1e5` and
`1e6`), and when the Mach-correction flag is enabled the returned lift is the
uncorrected lift divided by `sqrt(1-M^2)`; under xRotor the flags never change
the result. -/
theorem postprocessing_corrections :
    (∀ (m : String) (av : Option (List ℝ)) (mcorr rcorr : Bool) (AoA Re_ref Re M : ℝ)
        (x : Option ℝ) (r_R : Option (List ℝ)) (cldb cddb : Option (List (List ℝ)))
        (o1 o2 o3 o4 o5 o6 o7 o8 o9 o10 o11 : Option ℝ) (cl cd : ℝ),
        m = "flat_plate" ∨ m = "xFoil" →
        Aerodynamics.eval_coeffs (Aerodynamics.init m av false false) AoA Re_ref Re M
          x r_R cldb cddb o1 o2 o3 o4 o5 o6 o7 o8 o9 o10 o11 = Except.ok (cl, cd) →
        Aerodynamics.eval_coeffs (Aerodynamics.init m av mcorr rcorr) AoA Re_ref Re M
          x r_R cldb cddb o1 o2 o3 o4 o5 o6 o7 o8 o9 o10 o11 =
          Except.ok ((if mcorr then cl / Real.sqrt (1 - M ^ 2) else cl),
                     (if rcorr then cd * (Re / Re_ref) ^ reyExp Re else cd))) ∧
    (∀ Re : ℝ, Re < 1e5 → reyExp Re = -0.4) ∧
    (∀ Re : ℝ, 1e5 ≤ Re → Re < 1e6 → reyExp Re = -1) ∧
    (∀ Re : ℝ, 1e6 ≤ Re → reyExp Re = -0.15) ∧
    reyExp 99999 = -0.4 ∧ reyExp 100000 = -1 ∧
    (∀ (av : Option (List ℝ)) (mcorr rcorr : Bool) (AoA Re_ref Re M : ℝ)
        (x : Option ℝ) (r_R : Option (List ℝ)) (cldb cddb : Option (List (List ℝ)))
        (o1 o2 o3 o4 o5 o6 o7 o8 o9 o10 o11 : Option ℝ),
        Aerodynamics.eval_coeffs (Aerodynamics.init "xRotor" av mcorr rcorr) AoA Re_ref Re M
          x r_R cldb cddb o1 o2 o3 o4 o5 o6 o7 o8 o9 o10 o11 =
        Aerodynamics.eval_coeffs (Aerodynamics.init "xRotor" av false false) AoA Re_ref Re M
          x r_R cldb cddb o1 o2 o3 o4 o5 o6 o7 o8 o9 o10 o11) := by
  refine ⟨?_, ?_, ?_, ?_, ?_, ?_, ?_⟩
  · rintro m av mcorr rcorr AoA Re_ref Re M x r_R cldb cddb o1 o2 o3 o4 o5 o6 o7 o8 o9 o10 o11
      cl cd (rfl | rfl) h
    · rw [eval_coeffs_flatplate_eq] at h
      simp only [Bool.false_eq_true, if_false, Except.ok.injEq, Prod.mk.injEq] at h
      obtain ⟨rfl, rfl⟩ := h
      rw [eval_coeffs_flatplate_eq]
    · rw [eval_coeffs_xfoil_eq] at h
      rw [eval_coeffs_xfoil_eq]
      cases hcond : (av.isNone || x.isNone || r_R.isNone || cldb.isNone || cddb.isNone) with
      | true =>
        rw [hcond] at h
        simp [Except.map] at h
      | false =>
        rw [hcond] at h
        simp only [Bool.false_eq_true, if_false, Except.map, Except.ok.injEq,
          Prod.mk.injEq] at h ⊢
        obtain ⟨rfl, rfl⟩ := h
        exact ⟨rfl, rfl⟩
  · intro Re h
    rw [reyExp]
    exact if_pos h
  · intro Re h1 h2
    rw [reyExp, if_neg (not_lt.mpr h1)]
    exact if_pos h2
  · intro Re h
    rw [reyExp, if_neg (not_lt.mpr (le_trans (by norm_num) h)),
      if_neg (not_lt.mpr (le_trans (by norm_num) h))]
  · rw [reyExp, if_pos (by norm_num)]
  · rw [reyExp, if_neg (by norm_num), if_pos (by norm_num)]
  · intro av mcorr rcorr AoA Re_ref Re M x r_R cldb cddb o1 o2 o3 o4 o5 o6 o7 o8 o9 o10 o11
    rfl

/-- Witness for C6: the flat-plate relation instantiated with the Reynolds
correction enabled at `Re = 1e5`, `Re_ref = 1e4`, `M = 0`. -/
theorem postprocessing_corrections_witness :
    ("flat_plate" = "flat_plate" ∨ "flat_plate" = "xFoil") ∧
    Aerodynamics.eval_coeffs (Aerodynamics.init "flat_plate" none false true) 0 1e4 1e5 0
      none none none none none none none none none none none none none none none =
    Except.ok
      ((if false then
          max (min (2 * Real.pi * 0 / Real.sqrt (1 - 0 ^ 2)) 3.5) (-3.5) / Real.sqrt (1 - 0 ^ 2)
        else max (min (2 * Real.pi * 0 / Real.sqrt (1 - 0 ^ 2)) 3.5) (-3.5)),
       (if true then (0.02 : ℝ) * ((1e5 : ℝ) / 1e4) ^ reyExp 1e5 else 0.02)) :=
  ⟨Or.inl rfl,
   postprocessing_corrections.1 "flat_plate" none false true 0 1e4 1e5 0 none none none none
     none none none none none none none none none none none
     (max (min (2 * Real.pi * 0 / Real.sqrt (1 - 0 ^ 2)) 3.5) (-3.5)) 0.02 (Or.inl rfl) rfl⟩

/-! ### Interpolation node lemmas (for the tabulated-polar round trip) -/

/-- In a chain of strictly increasing abscissas, the head is below every
element of the tail. -/
theorem chain'_fst_head_lt : ∀ (l : List (ℝ × ℝ)) (x : ℝ × ℝ),
    List.Chain' (fun p q : ℝ × ℝ => p.1 < q.1) (x :: l) →
    ∀ (m : ℕ) (hm : m < l.length), x.1 < (l.get ⟨m, hm⟩).1 := by
  intro l
  induction l with
  | nil => intro x _ m hm; simp at hm
  | cons y l ih =>
    intro x hch m hm
    have hxy : x.1 < y.1 := (List.chain'_cons.mp hch).1
    have hch2 : List.Chain' (fun p q : ℝ × ℝ => p.1 < q.1) (y :: l) :=
      (List.chain'_cons.mp hch).2
    cases m with
    | zero => simpa using hxy
    | succ m =>
      have hm2 : m < l.length := by simpa using hm
      have hrec := ih y hch2 m hm2
      have : ((y :: l).get ⟨m + 1, hm⟩) = l.get ⟨m, hm2⟩ := rfl
      rw [this]
      exact hxy.trans hrec

theorem interp1_node : ∀ (ps : List (ℝ × ℝ)),
    List.Chain' (fun p q : ℝ × ℝ => p.1 < q.1) ps →
    ∀ (k : ℕ) (hk : k < ps.length),
      interp1 ps (ps.get ⟨k, hk⟩).1 = (ps.get ⟨k, hk⟩).2 := by
  intro ps
  induction ps with
  | nil => intro _ k hk; simp at hk
  | cons hd tl ih =>
    obtain ⟨x0, y0⟩ := hd
    cases tl with
    | nil =>
      intro _ k hk
      have hk0 : k = 0 := by simpa using Nat.lt_one_iff.mp (by simpa using hk)
      subst hk0
      simp [interp1]
    | cons hd1 tl1 =>
      obtain ⟨x1, y1⟩ := hd1
      intro hch k hk
      have h01 : x0 < x1 := (List.chain'_cons.mp hch).1
      have hch1 : List.Chain' (fun p q : ℝ × ℝ => p.1 < q.1) ((x1, y1) :: tl1) :=
        (List.chain'_cons.mp hch).2
      match k with
      | 0 => simp [interp1]
      | 1 =>
        have hne : x1 - x0 ≠ 0 := sub_ne_zero.mpr (ne_of_gt h01)
        show interp1 ((x0, y0) :: (x1, y1) :: tl1) x1 = y1
        rw [interp1]
        rw [if_neg (not_le.mpr h01), if_pos le_rfl]
        field_simp
      | (j+2) =>
        have hk1 : j + 1 < ((x1, y1) :: tl1).length := by simpa using hk
        have hq : x1 < (((x1, y1) :: tl1).get ⟨j + 1, hk1⟩).1 := by
          have hj : j < tl1.length := by simpa using hk1
          have := chain'_fst_head_lt tl1 (x1, y1) hch1 j hj
          simpa using this
        have hgoal : ((x0, y0) :: (x1, y1) :: tl1).get ⟨j + 2, hk⟩ =
            ((x1, y1) :: tl1).get ⟨j + 1, hk1⟩ := rfl
        rw [hgoal, interp1]
        rw [if_neg (not_le.mpr (h01.trans hq)), if_neg (not_le.mpr hq)]
        exact ih hch1 (j + 1) hk1

theorem chain'_zip_lt : ∀ (xs : List ℝ) (ys : List ℝ), List.Chain' (· < ·) xs →
    List.Chain' (fun p q : ℝ × ℝ => p.1 < q.1) (xs.zip ys) := by
  intro xs
  induction xs with
  | nil => intro ys _; simp
  | cons x xs ih =>
    intro ys hch
    cases ys with
    | nil => simp
    | cons y ys =>
      rw [List.zip_cons_cons]
      cases xs with
      | nil => simp
      | cons x2 xs2 =>
        cases ys with
        | nil => simp
        | cons y2 ys2 =>
          refine List.chain'_cons.mpr ⟨?_, ?_⟩
          · exact (List.chain'_cons.mp hch).1
          · exact ih (y2 :: ys2) (List.chain'_cons.mp hch).2

theorem interp1_zip_node (xs ys : List ℝ)
    (hch : List.Chain' (· < ·) xs) (hlen : ys.length = xs.length)
    (k : ℕ) (hk : k < xs.length) :
    interp1 (xs.zip ys) (xs.getD k 0) = ys.getD k 0 := by
  have hky : k < ys.length := hlen ▸ hk
  have hkz : k < (xs.zip ys).length := by
    rw [List.length_zip, hlen]
    simpa using hk
  have h1 := interp1_node (xs.zip ys) (chain'_zip_lt xs ys hch) k hkz
  simp only [List.get_eq_getElem, List.getElem_zip] at h1
  rw [List.getD_eq_getElem xs 0 hk, List.getD_eq_getElem ys 0 hky]
  exact h1

theorem interp2_node (alphas rs : List ℝ) (grid : List (List ℝ))
    (ha : List.Chain' (· < ·) alphas) (hr : List.Chain' (· < ·) rs)
    (hg : grid.length = rs.length)
    (hrow : ∀ row ∈ grid, row.length = alphas.length)
    (i j : ℕ) (hi : i < alphas.length) (hj : j < rs.length) :
    interp2 alphas rs grid (alphas.getD i 0) (rs.getD j 0) =
      (grid.getD j []).getD i 0 := by
  rw [interp2]
  have hlen : (grid.map (fun row => interp1 (alphas.zip row) (alphas.getD i 0))).length
      = rs.length := by simpa using hg
  rw [interp1_zip_node rs _ hr hlen j hj]
  have hjg : j < grid.length := hg ▸ hj
  have hmap : j < (grid.map (fun row => interp1 (alphas.zip row) (alphas.getD i 0))).length := by
    simpa using hjg
  rw [List.getD_eq_getElem _ 0 hmap, List.getElem_map]
  have hrowj : (grid[j]).length = alphas.length :=
    hrow _ (List.getElem_mem hjg)
  rw [interp1_zip_node alphas _ ha hrowj i hi]
  rw [List.getD_eq_getElem grid [] hjg]

/-- C9: for every polar table with monotonically increasing axes, querying
`eval_coeffs` under the xFoil variant exactly at a grid node (an entry of the
angle axis paired with an entry of the span axis) returns exactly the stored
Cl and Cd values at that node: the linear 2-D interpolation degenerates to
exact lookup at grid points. -/
theorem tabulated_grid_node_lookup (alphas rs : List ℝ) (cldb cddb : List (List ℝ))
    (Re_ref Re M : ℝ) (i j : ℕ)
    (ha : List.Chain' (· < ·) alphas) (hr : List.Chain' (· < ·) rs)
    (hcl : cldb.length = rs.length) (hcd : cddb.length = rs.length)
    (hclrow : ∀ row ∈ cldb, row.length = alphas.length)
    (hcdrow : ∀ row ∈ cddb, row.length = alphas.length)
    (hi : i < alphas.length) (hj : j < rs.length) :
    Aerodynamics.eval_coeffs (Aerodynamics.init "xFoil" (some alphas) false false)
      (alphas.getD i 0) Re_ref Re M (some (rs.getD j 0)) (some rs) (some cldb) (some cddb)
      none none none none none none none none none none none =
    Except.ok ((cldb.getD j []).getD i 0, (cddb.getD j []).getD i 0) := by
  have h0 : Aerodynamics.eval_coeffs (Aerodynamics.init "xFoil" (some alphas) false false)
      (alphas.getD i 0) Re_ref Re M (some (rs.getD j 0)) (some rs) (some cldb) (some cddb)
      none none none none none none none none none none none =
      Except.ok (interp2 alphas rs cldb (alphas.getD i 0) (rs.getD j 0),
                 interp2 alphas rs cddb (alphas.getD i 0) (rs.getD j 0)) := rfl
  rw [h0, interp2_node alphas rs cldb ha hr hcl hclrow i j hi hj,
    interp2_node alphas rs cddb ha hr hcd hcdrow i j hi hj]

/-- Witness for C9: a concrete 2-by-2 table queried at the node
`(alphas[1], rs[0])` returns the stored values. -/
theorem tabulated_grid_node_lookup_witness :
    List.Chain' (· < ·) ([-2, 2] : List ℝ) ∧ List.Chain' (· < ·) ([0, 1] : List ℝ) ∧
    (1 < ([-2, 2] : List ℝ).length) ∧ (0 < ([0, 1] : List ℝ).length) ∧
    Aerodynamics.eval_coeffs (Aerodynamics.init "xFoil" (some ([-2, 2] : List ℝ)) false false)
      (([-2, 2] : List ℝ).getD 1 0) 1e6 1e6 0
      (some (([0, 1] : List ℝ).getD 0 0)) (some ([0, 1] : List ℝ))
      (some ([[1, 2], [3, 4]] : List (List ℝ))) (some ([[5, 6], [7, 8]] : List (List ℝ)))
      none none none none none none none none none none none =
    Except.ok ((([[1, 2], [3, 4]] : List (List ℝ)).getD 0 []).getD 1 0,
               (([[5, 6], [7, 8]] : List (List ℝ)).getD 0 []).getD 1 0) := by
  have hrow1 : ∀ row ∈ ([[1, 2], [3, 4]] : List (List ℝ)), row.length = ([-2, 2] : List ℝ).length := by
    intro row hrow
    rcases List.mem_cons.mp hrow with rfl | h2
    · rfl
    rcases List.mem_cons.mp h2 with rfl | h3
    · rfl
    · simp at h3
  have hrow2 : ∀ row ∈ ([[5, 6], [7, 8]] : List (List ℝ)), row.length = ([-2, 2] : List ℝ).length := by
    intro row hrow
    rcases List.mem_cons.mp hrow with rfl | h2
    · rfl
    rcases List.mem_cons.mp h2 with rfl | h3
    · rfl
    · simp at h3
  refine ⟨?_, ?_, by norm_num, by norm_num, ?_⟩
  · simp [List.chain'_cons]
  · simp [List.chain'_cons]
  · exact tabulated_grid_node_lookup [-2, 2] [0, 1] [[1, 2], [3, 4]] [[5, 6], [7, 8]]
      1e6 1e6 0 1 0 (by simp [List.chain'_cons]) (by simp [List.chain'_cons])
      rfl rfl hrow1 hrow2 (by norm_num) (by norm_num)

/-- Witness for C10: instantiated at `M = 0.5`. -/
theorem flatplate_mach_correction_exceeds_clamp_witness :
    (0 : ℝ) < 0.5 ∧ (0.5 : ℝ) < 1 ∧
    ∃ cd : ℝ,
      Aerodynamics.eval_coeffs (Aerodynamics.init "flat_plate" none true false) 1 1e6 1e6 0.5
        none none none none none none none none none none none none none none none =
      Except.ok (3.5 / Real.sqrt (1 - 0.5 ^ 2), cd) ∧
      (3.5 : ℝ) < 3.5 / Real.sqrt (1 - 0.5 ^ 2) :=
  ⟨by norm_num, by norm_num,
   flatplate_mach_correction_exceeds_clamp 1e6 1e6 0.5 false (by norm_num) (by norm_num)⟩

end
